import Mathlib

/-!
Verification of the alto/nomad EC2 provisioning core against its
natural-language specification.

The Python source is shallowly embedded: pure helpers become Lean functions,
stateful provider interaction is modelled by explicit state passing plus an
oracle (`Ec2World` etc.) describing the provider's responses, and fallible
Python code returns `Except PyErr`.  Source files embedded here:
  * src/alto/agents/ec2/protocols/ssh.py   (SSHProtocol)
  * src/alto/agents/ec2/protocols/ssm.py   (SSMProtocol)
  * src/alto/agents/ec2/ec2.py             (Ec2.delete_resources_in_json)
  * src/alto/mixins/aws_mixins.py          (enums, AwsMixin helpers)
  * src/nomad/command.py                   (AgentCommand)
-/

set_option maxRecDepth 8000

namespace Alto

/-! ## Python string primitives

`strContainsB hay needle` models Python's `needle in hay` (substring test).
`splitOnChar` models splitting a string at every occurrence of a separator
character; it is used to express the two anchored regexes of
`check_ip_address_type` (ssh.py lines 95-102) as executable predicates. -/

/-- `listPrefixOfB n h` is true iff `n` is a prefix of `h`. -/
def listPrefixOfB : List Char → List Char → Bool
  | [], _ => true
  | _ :: _, [] => false
  | a :: as, b :: bs => a = b && listPrefixOfB as bs

/-- `listContainsB n h` is true iff `n` occurs contiguously inside `h`
(Python `n in h` for strings). -/
def listContainsB (needle : List Char) : List Char → Bool
  | [] => listPrefixOfB needle []
  | c :: rest => listPrefixOfB needle (c :: rest) || listContainsB needle rest

/-- Python `needle in hay` on strings. -/
def strContainsB (hay needle : String) : Bool :=
  listContainsB needle.data hay.data

theorem listPrefixOfB_refl (l : List Char) : listPrefixOfB l l = true := by
  induction l with
  | nil => rfl
  | cons a as ih => simp [listPrefixOfB, ih]

theorem strContainsB_refl (s : String) : strContainsB s s = true := by
  unfold strContainsB
  cases h : s.data with
  | nil => simp [listContainsB, listPrefixOfB]
  | cons c rest => simp [listContainsB, listPrefixOfB_refl]

/-- Split a character list at every occurrence of `sep`.  `splitOnChar sep cs`
always returns at least one (possibly empty) part, and
`cs = intercalate [sep] (splitOnChar sep cs)`. -/
def splitOnChar (sep : Char) : List Char → List (List Char)
  | [] => [[]]
  | c :: cs =>
    if c = sep then [] :: splitOnChar sep cs
    else
      match splitOnChar sep cs with
      | [] => [[c]]
      | p :: ps => (c :: p) :: ps

theorem splitOnChar_ne_nil (sep : Char) (cs : List Char) :
    splitOnChar sep cs ≠ [] := by
  induction cs with
  | nil => simp [splitOnChar]
  | cons c cs ih =>
    simp only [splitOnChar]
    split
    · simp
    · split
      · simp
      · simp

theorem splitOnChar_of_not_mem (sep : Char) (cs : List Char) (h : sep ∉ cs) :
    splitOnChar sep cs = [cs] := by
  induction cs with
  | nil => rfl
  | cons c cs ih =>
    have hc : c ≠ sep := fun hcs => h (hcs ▸ List.mem_cons_self c cs)
    have hcs : sep ∉ cs := fun hm => h (List.mem_cons_of_mem c hm)
    simp only [splitOnChar, if_neg hc, ih hcs]

theorem mem_of_splitOnChar (sep c : Char) (cs : List Char) (h : c ∈ cs) :
    c = sep ∨ ∃ p ∈ splitOnChar sep cs, c ∈ p := by
  induction cs with
  | nil => cases h
  | cons a as ih =>
    rcases List.mem_cons.mp h with h1 | h2
    · subst h1
      by_cases ha : c = sep
      · exact Or.inl ha
      · right
        simp only [splitOnChar, if_neg ha]
        cases hs : splitOnChar sep as with
        | nil => exact absurd hs (splitOnChar_ne_nil sep as)
        | cons p ps => exact ⟨c :: p, List.mem_cons_self _ _, List.mem_cons_self _ _⟩
    · rcases ih h2 with h3 | ⟨p, hp, hcp⟩
      · exact Or.inl h3
      · right
        simp only [splitOnChar]
        by_cases ha : a = sep
        · rw [if_pos ha]
          exact ⟨p, List.mem_cons_of_mem _ hp, hcp⟩
        · rw [if_neg ha]
          cases hs : splitOnChar sep as with
          | nil => exact absurd hs (splitOnChar_ne_nil sep as)
          | cons q qs =>
            rw [hs] at hp
            rcases List.mem_cons.mp hp with hq | hqs
            · exact ⟨a :: q, List.mem_cons_self _ _, hq ▸ List.mem_cons_of_mem _ hcp⟩
            · exact ⟨p, List.mem_cons_of_mem _ hqs, hcp⟩

/-! ## IP classification (ssh.py `SSHProtocol.check_ip_address_type`, lines 84-118)

The source classifies with two anchored regexes:
  IPv4: `^(?:\d\x7b1,3\x7d\.)\x7b3\x7d\d\x7b1,3\x7d$`  — four dot-separated
        groups of 1-3 decimal digits;
  IPv6: `^(?:[0-9a-fA-F]\x7b1,4\x7d:)\x7b7\x7d[0-9a-fA-F]\x7b1,4\x7d$` — eight
        colon-separated groups of 1-4 hex digits.
Because the group bodies cannot contain the separator, an anchored match is
equivalent to: splitting on the separator yields exactly 4 (resp. 8) parts,
each of the stated length and alphabet.  `\d` and `[0-9a-fA-F]` are modelled
over the ASCII alphabet. -/

def isAsciiDigit (c : Char) : Bool := '0' ≤ c && c ≤ '9'

def isAsciiHexDigit (c : Char) : Bool :=
  isAsciiDigit c || ('a' ≤ c && c ≤ 'f') || ('A' ≤ c && c ≤ 'F')

/-- The IPv4 regex of `check_ip_address_type` as a predicate. -/
def isIPv4Chars (cs : List Char) : Bool :=
  let parts := splitOnChar '.' cs
  parts.length = 4 &&
    parts.all (fun p => 1 ≤ p.length && p.length ≤ 3 && p.all isAsciiDigit)

/-- The IPv6 regex of `check_ip_address_type` as a predicate. -/
def isIPv6Chars (cs : List Char) : Bool :=
  let parts := splitOnChar ':' cs
  parts.length = 8 &&
    parts.all (fun p => 1 ≤ p.length && p.length ≤ 4 && p.all isAsciiHexDigit)

inductive IpAddressType
  | v4
  | v6
deriving DecidableEq, Repr

/-- ssh.py lines 84-118: raise ValueError if the string matches both regexes or
neither; otherwise return the matched address type. -/
def checkIpAddressType (externalIp : String) : Except String IpAddressType :=
  let flagIsIpv4 := isIPv4Chars externalIp.data
  let flagIsIpv6 := isIPv6Chars externalIp.data
  if flagIsIpv4 && flagIsIpv6 then
    Except.error ("Unrecognized IP address type `" ++ externalIp ++ "`")
  else if !(flagIsIpv4 || flagIsIpv6) then
    Except.error ("Unrecognized IP address type `" ++ externalIp ++ "`")
  else if flagIsIpv4 then
    Except.ok IpAddressType.v4
  else
    Except.ok IpAddressType.v6

/-- An IPv4 match contains a dot and consists of digits and dots only, so it
can never also be an IPv6 match (whose characters are hex digits and colons). -/
theorem isIPv4_not_isIPv6 (cs : List Char) (h4 : isIPv4Chars cs = true) :
    isIPv6Chars cs = false := by
  by_contra h6
  have h6' : isIPv6Chars cs = true := by
    cases h : isIPv6Chars cs
    · exact absurd h h6
    · rfl
  -- From the IPv4 match: splitting on '.' yields 4 parts, so '.' ∈ cs.
  have hdot : '.' ∈ cs := by
    by_contra hnd
    have := splitOnChar_of_not_mem '.' cs hnd
    unfold isIPv4Chars at h4
    rw [this] at h4
    simp at h4
  -- From the IPv6 match: every character of cs is ':' or an ASCII hex digit.
  rcases mem_of_splitOnChar ':' '.' cs hdot with hcol | ⟨p, hp, hdp⟩
  · exact absurd hcol (by decide)
  · unfold isIPv6Chars at h6'
    simp only [Bool.and_eq_true, decide_eq_true_eq, List.all_eq_true] at h6'
    have hd := (h6'.2 p hp).2 '.' hdp
    exact absurd hd (by decide)

/-- C6: for every input string, `check_ip_address_type` either returns exactly
one of the two address types or raises `ValueError`; it raises exactly when the
string matches both, or neither, of the IPv4/IPv6 patterns; and it returns a
type only when exactly the corresponding pattern matched (no silent default). -/
theorem checkIpAddressType_total_exact (s : String) :
    (checkIpAddressType s = Except.ok IpAddressType.v4 ↔
      (isIPv4Chars s.data = true ∧ isIPv6Chars s.data = false))
    ∧ (checkIpAddressType s = Except.ok IpAddressType.v6 ↔
      (isIPv6Chars s.data = true ∧ isIPv4Chars s.data = false))
    ∧ ((∃ msg, checkIpAddressType s = Except.error msg) ↔
      ((isIPv4Chars s.data = true ∧ isIPv6Chars s.data = true) ∨
        (isIPv4Chars s.data = false ∧ isIPv6Chars s.data = false))) := by
  unfold checkIpAddressType
  cases h4 : isIPv4Chars s.data <;> cases h6 : isIPv6Chars s.data <;> simp

/-- C10: the classification is purely syntactic.  Any string matching the
four-groups-of-1-to-3-digits pattern is classified V4 — group values above 255
included (witness `999.999.999.999`) — while the compressed IPv6 form `::1`
matches neither pattern and raises; V6 is returned only for the full
eight-group colon form. -/
theorem checkIpAddressType_syntactic :
    (∀ s : String, isIPv4Chars s.data = true →
      checkIpAddressType s = Except.ok IpAddressType.v4)
    ∧ checkIpAddressType "999.999.999.999" = Except.ok IpAddressType.v4
    ∧ (∃ msg, checkIpAddressType "::1" = Except.error msg)
    ∧ (∀ s : String, checkIpAddressType s = Except.ok IpAddressType.v6 →
      isIPv6Chars s.data = true) := by
  refine ⟨?_, ?_, ?_, ?_⟩
  · intro s h4
    have h6 := isIPv4_not_isIPv6 s.data h4
    unfold checkIpAddressType
    simp [h4, h6]
  · rfl
  · exact ⟨"Unrecognized IP address type `::1`", rfl⟩
  · intro s h
    unfold checkIpAddressType at h
    cases h4 : isIPv4Chars s.data <;> cases h6 : isIPv6Chars s.data <;> simp_all

/-- Witness for the hypothesis-bearing conjunct of
`checkIpAddressType_syntactic`: instantiated at `999.999.999.999`. -/
theorem checkIpAddressType_syntactic_witness :
    checkIpAddressType "999.999.999.999" = Except.ok IpAddressType.v4 :=
  checkIpAddressType_syntactic.1 "999.999.999.999" (by decide)
/-! ## Security groups and the ingress guard
(ssh.py `add_ingress_rule` lines 120-176, `check_ingress_ip` lines 178-239)

A security group is its provider state: a group id plus the attached ingress
permissions.  `describe_security_groups` is modelled by handing the functions
the full group list; the "what is my IP" HTTP call is modelled by passing the
caller's external IP as an oracle argument; `self.args.whitelist_all` is
passed explicitly. -/

instance exceptDecEq {ε α : Type} [DecidableEq ε] [DecidableEq α] :
    DecidableEq (Except ε α) := fun a b =>
  match a, b with
  | Except.error e, Except.error f =>
    if h : e = f then Decidable.isTrue (by rw [h])
    else Decidable.isFalse (fun hc => by cases hc; exact h rfl)
  | Except.error _, Except.ok _ => Decidable.isFalse (fun hc => Except.noConfusion hc)
  | Except.ok _, Except.error _ => Decidable.isFalse (fun hc => Except.noConfusion hc)
  | Except.ok x, Except.ok y =>
    if h : x = y then Decidable.isTrue (by rw [h])
    else Decidable.isFalse (fun hc => by cases hc; exact h rfl)

structure IpPermission where
  ipProtocol : String
  fromPort : Int
  toPort : Int
  ipRanges : List String      -- the CidrIp of each entry of IpRanges
  ipv6Ranges : List String    -- the CidrIpv6 of each entry of Ipv6Ranges
deriving DecidableEq, Repr

structure SecurityGroup where
  groupId : String
  ipPermissions : List IpPermission
deriving DecidableEq, Repr

/-- ssh.py lines 194-198: scan all described groups, keeping the last one whose
`GroupId` matches. -/
def findSecurityGroup (sgs : List SecurityGroup) (securityGroupId : String) :
    Option SecurityGroup :=
  sgs.foldl (fun acc sg => if sg.groupId = securityGroupId then some sg else acc) none

inductive AuthorizeOutcome
  | authorized (newGroups : List SecurityGroup)
  | duplicateRule
  | groupNotFound
deriving DecidableEq, Repr

/-- Provider model of `ec2_client.authorize_security_group_ingress`: raises the
"the specified rule ... already exists" client error iff an identical
permission entry is already attached to the group, fails if the group id is
unknown, and otherwise appends the permission to the group's ingress list. -/
def authorizeSecurityGroupIngress (sgs : List SecurityGroup)
    (securityGroupId : String) (perm : IpPermission) : AuthorizeOutcome :=
  match findSecurityGroup sgs securityGroupId with
  | none => AuthorizeOutcome.groupNotFound
  | some sg =>
    if perm ∈ sg.ipPermissions then AuthorizeOutcome.duplicateRule
    else
      AuthorizeOutcome.authorized
        (sgs.map (fun g =>
          if g.groupId = securityGroupId then
            { g with ipPermissions := g.ipPermissions ++ [perm] }
          else g))

/-- ssh.py lines 138-163: the IP (segment) reported back by `add_ingress_rule`
(`external_ip` is overwritten with `0.0.0.0` in the `whitelist_all` branch). -/
def ingressRetIp (whitelistAll : Bool) (externalIp : String) :
    IpAddressType → String
  | IpAddressType.v4 => if !whitelistAll then externalIp else "0.0.0.0"
  | IpAddressType.v6 => externalIp

/-- ssh.py lines 138-163: the single permission entry `add_ingress_rule`
authorizes — `<ip>/32` for IPv4 unless `whitelist_all` (then `0.0.0.0/0`), and
unconditionally `::/0` for IPv6. -/
def ingressPermFor (whitelistAll : Bool) (externalIp : String) :
    IpAddressType → IpPermission
  | IpAddressType.v4 =>
    if !whitelistAll then ⟨"tcp", 22, 22, [externalIp ++ "/32"], []⟩
    else ⟨"tcp", 22, 22, ["0.0.0.0/0"], []⟩
  | IpAddressType.v6 => ⟨"tcp", 22, 22, [], ["::/0"]⟩

/-- ssh.py lines 120-176 `add_ingress_rule`: classify the IP, build the
permission, authorize it, and return the added IP — or `None` when the
provider reports that the rule already exists. -/
def addIngressRule (whitelistAll : Bool) (sgs : List SecurityGroup)
    (securityGroupId externalIp : String) :
    Except String (Option String × List SecurityGroup) :=
  match checkIpAddressType externalIp with
  | Except.error e => Except.error e
  | Except.ok ipType =>
    match authorizeSecurityGroupIngress sgs securityGroupId
        (ingressPermFor whitelistAll externalIp ipType) with
    | AuthorizeOutcome.authorized newGroups =>
      Except.ok (some (ingressRetIp whitelistAll externalIp ipType), newGroups)
    | AuthorizeOutcome.duplicateRule => Except.ok (none, sgs)
    | AuthorizeOutcome.groupNotFound => Except.error "InvalidGroup.NotFound"

/-- ssh.py lines 210-230: does one described permission entry already allow SSH
from the caller?  Only TCP rules on port 22 are inspected, and the CIDR check
is Python's substring test (`ip_search in ipr["CidrIp"]`). -/
def ingressPermAllows (ipType : IpAddressType) (whitelistAll : Bool)
    (externalIp : String) (p : IpPermission) : Bool :=
  p.fromPort = 22 && p.ipProtocol = "tcp" && p.toPort = 22 &&
    (match ipType with
     | IpAddressType.v4 =>
       p.ipRanges.any (fun r =>
         strContainsB r (if whitelistAll then "0.0.0.0/0" else externalIp ++ "/32"))
     | IpAddressType.v6 => p.ipv6Ranges.any (fun r => strContainsB r "::/0"))

/-- ssh.py lines 178-239 `check_ingress_ip`: find the group, classify the
caller's IP, and if no TCP port-22 rule covers it, authorize one via
`add_ingress_rule`; return `None` when it was already covered. -/
def checkIngressIp (whitelistAll : Bool) (sgs : List SecurityGroup)
    (securityGroupId externalIp : String) :
    Except String (Option String × List SecurityGroup) :=
  match findSecurityGroup sgs securityGroupId with
  | none =>
    Except.error ("could not find security group with ID `" ++ securityGroupId ++ "`")
  | some currSg =>
    match checkIpAddressType externalIp with
    | Except.error e => Except.error e
    | Except.ok ipType =>
      if currSg.ipPermissions.any (ingressPermAllows ipType whitelistAll externalIp) then
        Except.ok (none, sgs)
      else addIngressRule whitelistAll sgs securityGroupId externalIp

theorem findSecurityGroupAux_groupId (gid : String) (sgs : List SecurityGroup) :
    ∀ (acc : Option SecurityGroup) (sg : SecurityGroup),
      (∀ x, acc = some x → x.groupId = gid) →
      sgs.foldl (fun acc sg => if sg.groupId = gid then some sg else acc) acc = some sg →
      sg.groupId = gid := by
  induction sgs with
  | nil => intro acc sg hacc hfold; exact hacc sg hfold
  | cons a as ih =>
    intro acc sg hacc hfold
    simp only [List.foldl_cons] at hfold
    by_cases ha : a.groupId = gid
    · refine ih (some a) sg ?_ (by simpa [ha] using hfold)
      intro x hx
      cases hx
      exact ha
    · exact ih acc sg hacc (by simpa [ha] using hfold)

theorem findSecurityGroup_groupId (sgs : List SecurityGroup) (gid : String)
    (sg : SecurityGroup) (h : findSecurityGroup sgs gid = some sg) :
    sg.groupId = gid :=
  findSecurityGroupAux_groupId gid sgs none sg (fun _ hx => by cases hx) h

/-- Appending a permission to the matching group commutes with the last-match
scan of `describe_security_groups`. -/
theorem findSecurityGroup_map_append (sgs : List SecurityGroup) (gid : String)
    (perm : IpPermission) :
    findSecurityGroup
      (sgs.map (fun g =>
        if g.groupId = gid then { g with ipPermissions := g.ipPermissions ++ [perm] }
        else g)) gid
    = Option.map (fun g =>
        if g.groupId = gid then { g with ipPermissions := g.ipPermissions ++ [perm] }
        else g) (findSecurityGroup sgs gid) := by
  unfold findSecurityGroup
  suffices H : ∀ acc : Option SecurityGroup,
      (sgs.map (fun g =>
        if g.groupId = gid then { g with ipPermissions := g.ipPermissions ++ [perm] }
        else g)).foldl (fun acc sg => if sg.groupId = gid then some sg else acc)
          (Option.map (fun g =>
            if g.groupId = gid then { g with ipPermissions := g.ipPermissions ++ [perm] }
            else g) acc)
      = Option.map (fun g =>
          if g.groupId = gid then { g with ipPermissions := g.ipPermissions ++ [perm] }
          else g)
          (sgs.foldl (fun acc sg => if sg.groupId = gid then some sg else acc) acc) from
    H none
  induction sgs with
  | nil => intro acc; rfl
  | cons a as ih =>
    intro acc
    simp only [List.map_cons, List.foldl_cons]
    by_cases ha : a.groupId = gid
    · rw [show (if a.groupId = gid then { a with ipPermissions := a.ipPermissions ++ [perm] } else a) = { a with ipPermissions := a.ipPermissions ++ [perm] } from if_pos ha]
      have hb : ({ a with ipPermissions := a.ipPermissions ++ [perm] } : SecurityGroup).groupId = gid := ha
      rw [if_pos hb, if_pos ha, ← ih (some a)]
      simp [ha]
    · rw [show (if a.groupId = gid then { a with ipPermissions := a.ipPermissions ++ [perm] } else a) = a from if_neg ha]
      rw [if_neg ha, if_neg ha]
      exact ih acc

/-- The permission authorized by `add_ingress_rule` is one that
`check_ingress_ip`'s scan recognizes as covering the caller. -/
theorem ingressPermFor_allows (ipType : IpAddressType) (whitelistAll : Bool)
    (externalIp : String) :
    ingressPermAllows ipType whitelistAll externalIp
      (ingressPermFor whitelistAll externalIp ipType) = true := by
  cases ipType with
  | v4 =>
    cases whitelistAll with
    | false => simp [ingressPermFor, ingressPermAllows, strContainsB_refl]
    | true => simp [ingressPermFor, ingressPermAllows, strContainsB_refl]
  | v6 => simp [ingressPermFor, ingressPermAllows, strContainsB_refl]

/-- C7: for a fixed security group and a fixed caller IP, if `check_ingress_ip`
authorizes and returns the added IP/CIDR, then calling it again on the
resulting state returns `None`: the second call finds a TCP port-22 rule
already covering the caller (or `0.0.0.0/0` when `whitelist_all`) and performs
no authorization — the group state is unchanged. -/
theorem checkIngressIp_idempotent (whitelistAll : Bool)
    (sgs sgs' : List SecurityGroup) (securityGroupId externalIp addedIp : String)
    (h : checkIngressIp whitelistAll sgs securityGroupId externalIp =
      Except.ok (some addedIp, sgs')) :
    checkIngressIp whitelistAll sgs' securityGroupId externalIp =
      Except.ok (none, sgs') := by
  unfold checkIngressIp at h
  split at h
  · exact absurd h (by simp)
  next currSg hfind =>
  split at h
  · exact absurd h (by simp)
  next ipType hty =>
  split at h
  · exact absurd h (by simp)
  next hallow =>
  unfold addIngressRule at h
  split at h
  next e hty2 => rw [hty] at hty2; exact absurd hty2 (by simp)
  next ipType2 hty2 =>
  rw [hty] at hty2
  injection hty2 with hty3
  subst hty3
  split at h
  case _ newGroups hauth =>
    injection h with h1
    injection h1 with hadd hgroups
    unfold authorizeSecurityGroupIngress at hauth
    rw [hfind] at hauth
    simp only [] at hauth
    split at hauth
    · exact absurd hauth (by simp)
    next hdup =>
    injection hauth with hnew
    have hgid : currSg.groupId = securityGroupId :=
      findSecurityGroup_groupId sgs securityGroupId currSg hfind
    have hfind' :
        findSecurityGroup sgs' securityGroupId =
          some { currSg with
            ipPermissions := currSg.ipPermissions ++
              [ingressPermFor whitelistAll externalIp ipType] } := by
      rw [← hgroups, ← hnew, findSecurityGroup_map_append, hfind]
      simp [hgid]
    simp [checkIngressIp, hfind', hty, List.any_append, ingressPermFor_allows]
  case _ hauth => exact absurd h (by simp)
  case _ hauth => exact absurd h (by simp)

/-- Witness for `checkIngressIp_idempotent`: a group with no ingress rules and
caller IP `1.2.3.4`; the first call authorizes `1.2.3.4/32`, the second call
on the resulting state is a no-op. -/
theorem checkIngressIp_idempotent_witness :
    checkIngressIp false
      [⟨"sg-1", [⟨"tcp", 22, 22, ["1.2.3.4/32"], []⟩]⟩] "sg-1" "1.2.3.4" =
      Except.ok (none, [⟨"sg-1", [⟨"tcp", 22, 22, ["1.2.3.4/32"], []⟩]⟩]) :=
  checkIngressIp_idempotent false [⟨"sg-1", []⟩]
    [⟨"sg-1", [⟨"tcp", 22, 22, ["1.2.3.4/32"], []⟩]⟩] "sg-1" "1.2.3.4" "1.2.3.4"
    (by decide)

/-! ## SSH apply-script execution (ssh.py `_execute_apply_script`, lines 561-616) -/

structure ApplyScriptResult where
  returncode : Int
  runs : Nat               -- how many times the command was spawned
  escalated : Bool         -- was the 0.0.0.0/0 escalation branch taken
  groups : List SecurityGroup
  whitelistAll : Bool
deriving DecidableEq, Repr

/-- ssh.py lines 561-616: spawn the apply script; if it exits with code 8 (the
scripts' SSH-timeout convention) check the ingress rules via
`check_ingress_ip`; if the caller's IP was already whitelisted (`None`), set
`whitelist_all` and authorize `0.0.0.0` via `add_ingress_rule`; then re-run
the identical command exactly once and return its exit code.  `runReturncodes
k` is the oracle exit code of the `k`-th spawn of the command. -/
def executeApplyScript (runReturncodes : Nat → Int) (whitelistAll : Bool)
    (sgs : List SecurityGroup) (securityGroupId externalIp : String) :
    Except String ApplyScriptResult :=
  if runReturncodes 0 = 8 then
    match checkIngressIp whitelistAll sgs securityGroupId externalIp with
    | Except.error e => Except.error e
    | Except.ok (some _, sgs1) =>
      Except.ok ⟨runReturncodes 1, 2, false, sgs1, whitelistAll⟩
    | Except.ok (none, sgs1) =>
      -- "Current IP address already whitelisted...whitelisting 0.0.0.0/0"
      match addIngressRule true sgs1 securityGroupId "0.0.0.0" with
      | Except.error e => Except.error e
      | Except.ok (_, sgs2) => Except.ok ⟨runReturncodes 1, 2, true, sgs2, true⟩
  else
    Except.ok ⟨runReturncodes 0, 1, false, sgs, whitelistAll⟩

/-- C4: on exit code 8 the transport checks the security group for the
caller's IP, escalates to `0.0.0.0/0` exactly when that check returns `None`,
re-runs the identical command exactly once, and returns the second exit code
with no further retry; on any other exit code the command runs exactly once
and its exit code is returned. -/
theorem executeApplyScript_retry_semantics (runReturncodes : Nat → Int)
    (whitelistAll : Bool) (sgs : List SecurityGroup)
    (securityGroupId externalIp : String) :
    (runReturncodes 0 ≠ 8 →
      executeApplyScript runReturncodes whitelistAll sgs securityGroupId externalIp =
        Except.ok ⟨runReturncodes 0, 1, false, sgs, whitelistAll⟩)
    ∧ (∀ r, runReturncodes 0 = 8 →
      executeApplyScript runReturncodes whitelistAll sgs securityGroupId externalIp =
        Except.ok r →
      r.runs = 2 ∧ r.returncode = runReturncodes 1)
    ∧ (∀ r sgs1, runReturncodes 0 = 8 →
      checkIngressIp whitelistAll sgs securityGroupId externalIp =
        Except.ok (none, sgs1) →
      executeApplyScript runReturncodes whitelistAll sgs securityGroupId externalIp =
        Except.ok r →
      r.escalated = true ∧ r.whitelistAll = true) := by
  refine ⟨?_, ?_, ?_⟩
  · intro h
    unfold executeApplyScript
    rw [if_neg h]
  · intro r h8 hr
    unfold executeApplyScript at hr
    rw [if_pos h8] at hr
    split at hr
    · exact absurd hr (by simp)
    · injection hr with hr1
      rw [← hr1]
      exact ⟨rfl, rfl⟩
    · split at hr
      · exact absurd hr (by simp)
      · injection hr with hr1
        rw [← hr1]
        exact ⟨rfl, rfl⟩
  · intro r sgs1 h8 hcheck hr
    unfold executeApplyScript at hr
    rw [if_pos h8] at hr
    split at hr
    next heq => rw [hcheck] at heq; exact absurd heq (by simp)
    next heq => rw [hcheck] at heq; exact absurd heq (by simp)
    next heq =>
      split at hr
      · exact absurd hr (by simp)
      · injection hr with hr1
        rw [← hr1]
        exact ⟨rfl, rfl⟩

def c4RunCodes : Nat → Int := fun k => if k = 0 then 8 else 0

def c4Groups : List SecurityGroup :=
  [⟨"sg-1", [⟨"tcp", 22, 22, ["1.2.3.4/32"], []⟩]⟩]

def c4Result : ApplyScriptResult :=
  ⟨0, 2, true,
    [⟨"sg-1", [⟨"tcp", 22, 22, ["1.2.3.4/32"], []⟩,
               ⟨"tcp", 22, 22, ["0.0.0.0/0"], []⟩]⟩], true⟩

/-- Witness for `executeApplyScript_retry_semantics`: first run exits 8 while
`1.2.3.4` is already whitelisted, so `0.0.0.0/0` is added and the script is
re-run exactly once. -/
theorem executeApplyScript_retry_semantics_witness :
    executeApplyScript c4RunCodes false c4Groups "sg-1" "1.2.3.4" =
      Except.ok c4Result
    ∧ c4Result.runs = 2 ∧ c4Result.returncode = c4RunCodes 1
    ∧ c4Result.escalated = true ∧ c4Result.whitelistAll = true := by
  have happly : executeApplyScript c4RunCodes false c4Groups "sg-1" "1.2.3.4" =
      Except.ok c4Result := by decide
  have h2 := (executeApplyScript_retry_semantics c4RunCodes false c4Groups
    "sg-1" "1.2.3.4").2.1 c4Result (by decide) happly
  have h3 := (executeApplyScript_retry_semantics c4RunCodes false c4Groups
    "sg-1" "1.2.3.4").2.2 c4Result c4Groups (by decide) (by decide) happly
  exact ⟨happly, h2.1, h2.2, h3.1, h3.2⟩

/-! ## AgentCommand (src/nomad/command.py) -/

inductive OptValue
  | str (s : String)
  | list (vs : List String)
deriving DecidableEq, Repr

structure AgentCommand where
  executable : String
  script : String
  args : List (String × OptValue)              -- the insertion-ordered optargs dict
  acceptedOptargs : List String                -- `set_accepted_apply_optargs`
  additionalOptargs : List (String × OptValue) -- `set_additional_optargs`
deriving DecidableEq, Repr

/-- command.py `__init__`: the accepted optargs default to the keys of `args`,
the additional optargs to the empty dict. -/
def AgentCommand.make (executable script : String)
    (args : List (String × OptValue)) : AgentCommand :=
  ⟨executable, script, args, args.map Prod.fst, []⟩

/-- command.py lines 52-60 / 63-71: emit the flag and its value, or — for a
list-valued optarg — the flag once before every element, in element order. -/
def flattenOptarg (optarg : String) : OptValue → List String
  | OptValue.str v => [optarg, v]
  | OptValue.list vs => vs.foldl (fun acc v => acc ++ [optarg, v]) []

/-- command.py lines 41-74 `process_cmd`: skip optargs not in the accepted
list, flatten the rest in insertion order, append the additional optargs
flattened the same way, and prefix executable and script path. -/
def AgentCommand.processCmd (c : AgentCommand) : List String :=
  [c.executable, c.script] ++
    c.additionalOptargs.foldl (fun acc p => acc ++ flattenOptarg p.1 p.2)
      (c.args.foldl
        (fun acc p =>
          if c.acceptedOptargs.contains p.1 then acc ++ flattenOptarg p.1 p.2
          else acc) [])

/-- The flattening as the specification words it: each optarg contributes the
flag followed by its value, a list-valued flag once before each element in
element order. -/
def specFlattenEntry (p : String × OptValue) : List String :=
  match p.2 with
  | OptValue.str v => [p.1, v]
  | OptValue.list vs => (vs.map (fun v => [p.1, v])).flatten

/-- Spec-side flattening of a whole optarg dict, in insertion order. -/
def specFlattenAll (args : List (String × OptValue)) : List String :=
  (args.map specFlattenEntry).flatten

theorem foldl_append_eq_flatten {α : Type} (f : α → List String) (l : List α) :
    ∀ acc : List String,
      l.foldl (fun acc x => acc ++ f x) acc = acc ++ (l.map f).flatten := by
  induction l with
  | nil => intro acc; simp
  | cons a as ih => intro acc; simp [ih, List.append_assoc]

theorem foldl_filter_append_eq_flatten {α : Type} (pred : α → Bool)
    (f : α → List String) (l : List α) :
    ∀ acc : List String,
      l.foldl (fun acc x => if pred x then acc ++ f x else acc) acc =
        acc ++ ((l.filter pred).map f).flatten := by
  induction l with
  | nil => intro acc; simp
  | cons a as ih =>
    intro acc
    cases hp : pred a with
    | true => simp [hp, ih, List.append_assoc]
    | false => simp [hp, ih]

theorem flattenOptarg_eq_specFlattenEntry (k : String) (v : OptValue) :
    flattenOptarg k v = specFlattenEntry (k, v) := by
  cases v with
  | str s => rfl
  | list vs =>
    simp only [flattenOptarg, specFlattenEntry]
    rw [foldl_append_eq_flatten (fun v => [k, v]) vs []]
    rfl

/-- C8: `process_cmd` returns the executable, the script path, the accepted
optargs flattened in insertion order (a list-valued optarg contributes the
flag once before each element, in element order), then the additional optargs
flattened the same way; optargs `-p: x` and `-c: [a, b]` with both accepted
yield `[executable, script, -p, x, -c, a, -c, b]`, and a flag outside the
accepted set is absent from the result. -/
theorem processCmd_flattening :
    (∀ c : AgentCommand, c.processCmd =
      c.executable :: c.script ::
        (specFlattenAll (c.args.filter (fun p => c.acceptedOptargs.contains p.1)) ++
          specFlattenAll c.additionalOptargs))
    ∧ (AgentCommand.make "/bin/bash" "apply.sh"
        [("-p", OptValue.str "x"), ("-c", OptValue.list ["a", "b"])]).processCmd =
      ["/bin/bash", "apply.sh", "-p", "x", "-c", "a", "-c", "b"]
    ∧ "-q" ∉ ({ AgentCommand.make "/bin/bash" "apply.sh"
        [("-p", OptValue.str "x"), ("-c", OptValue.list ["a", "b"]),
         ("-q", OptValue.str "z")] with
        acceptedOptargs := ["-p", "-c"] } : AgentCommand).processCmd := by
  refine ⟨?_, by decide, by decide⟩
  intro c
  unfold AgentCommand.processCmd
  rw [foldl_filter_append_eq_flatten (fun p => c.acceptedOptargs.contains p.1)
    (fun p => flattenOptarg p.1 p.2) c.args []]
  rw [foldl_append_eq_flatten (fun p => flattenOptarg p.1 p.2) c.additionalOptargs]
  have hmap : ∀ l : List (String × OptValue),
      l.map (fun p => flattenOptarg p.1 p.2) = l.map specFlattenEntry := by
    intro l
    apply List.map_congr_left
    intro p _
    rw [flattenOptarg_eq_specFlattenEntry]
  rw [hmap, hmap]
  simp [specFlattenAll]

/-! ## SSM command submission retries
(ssm.py `send_command_and_stream_logs`, lines 610-714) -/

inductive CommandStatus
  | success
  | cancelled
  | failed
  | timedOut
deriving DecidableEq, Repr

inductive SubmitOutcome
  | accepted
  | raised (msg : String)
deriving DecidableEq, Repr

structure SendTrace where
  attempts : Nat           -- number of send_command submissions issued
  retrySleepSeconds : Nat  -- total time.sleep(5) spent between submissions
deriving DecidableEq, Repr

/-- ssm.py lines 638-709, the submission retry loop.  `submit k` is the oracle
outcome of the `k`-th `send_command` call; after an accepted submission the
source streams logs and polls `get_command_invocation` until the status is
terminal, which the oracle summarizes as `terminal`.  The counter starts at 0
and is incremented by 5 per retry; the error is re-raised once
`counter >= 30`.  Python's unbounded `while True` is modelled with explicit
fuel; fuel 31 is never exhausted because the counter reaches the cap after 6
retries. -/
def sendCommandLoop (submit : Nat → SubmitOutcome) (terminal : CommandStatus) :
    Nat → Nat → Nat → Except String CommandStatus × SendTrace
  | 0, _, _ => (Except.error "model fuel exhausted", ⟨0, 0⟩)
  | fuel + 1, k, counter =>
    match submit k with
    | SubmitOutcome.accepted => (Except.ok terminal, ⟨1, 0⟩)
    | SubmitOutcome.raised msg =>
      if strContainsB msg "InvalidInstanceId" then
        if 30 ≤ counter then (Except.error msg, ⟨1, 0⟩)
        else
          let r := sendCommandLoop submit terminal fuel (k + 1) (counter + 5)
          (r.1, ⟨r.2.attempts + 1, r.2.retrySleepSeconds + 5⟩)
      else (Except.error msg, ⟨1, 0⟩)

/-- ssm.py lines 610-714: the loop entered with `counter = 0`. -/
def sendCommandAndStreamLogs (submit : Nat → SubmitOutcome)
    (terminal : CommandStatus) : Except String CommandStatus × SendTrace :=
  sendCommandLoop submit terminal 31 0 0

def alwaysInvalidInstanceId : Nat → SubmitOutcome :=
  fun _ => SubmitOutcome.raised "InvalidInstanceId"

/-- C9 counterexample: when every submission fails with `InvalidInstanceId`,
the source issues exactly 7 submissions with 30 seconds of retry delay before
re-raising — not around 30 iterations nor around 150 seconds as claimed
(`counter` is incremented by 5, not by 1, against the cap of 30). -/
theorem sendCommand_retry_counterexample :
    (sendCommandAndStreamLogs alwaysInvalidInstanceId CommandStatus.success).2.attempts = 7
    ∧ (sendCommandAndStreamLogs alwaysInvalidInstanceId
        CommandStatus.success).2.retrySleepSeconds = 30
    ∧ ¬ (sendCommandAndStreamLogs alwaysInvalidInstanceId
        CommandStatus.success).2.attempts = 30
    ∧ ¬ (sendCommandAndStreamLogs alwaysInvalidInstanceId
        CommandStatus.success).2.retrySleepSeconds = 150 := by
  refine ⟨by decide, by decide, by decide, by decide⟩

theorem sendCommandLoop_bound (submit : Nat → SubmitOutcome)
    (terminal : CommandStatus) :
    ∀ fuel k counter, counter % 5 = 0 → counter ≤ 30 → 35 ≤ counter + 5 * fuel →
      1 ≤ (sendCommandLoop submit terminal fuel k counter).2.attempts
      ∧ 5 * (sendCommandLoop submit terminal fuel k counter).2.attempts + counter ≤ 35
      ∧ (sendCommandLoop submit terminal fuel k counter).2.retrySleepSeconds =
          5 * ((sendCommandLoop submit terminal fuel k counter).2.attempts - 1) := by
  intro fuel
  induction fuel with
  | zero => intro k counter h5 h30 hfuel; omega
  | succ fuel ih =>
    intro k counter h5 h30 hfuel
    cases hsub : submit k with
    | accepted =>
      simp only [sendCommandLoop, hsub]
      refine ⟨by omega, by omega, by trivial⟩
    | raised msg =>
      cases hmatch : strContainsB msg "InvalidInstanceId" with
      | false =>
        simp only [sendCommandLoop, hsub, hmatch, Bool.false_eq_true, if_false]
        refine ⟨by omega, by omega, by trivial⟩
      | true =>
        by_cases hcap : 30 ≤ counter
        · simp only [sendCommandLoop, hsub, hmatch, if_true, if_pos hcap]
          refine ⟨by omega, by omega, by trivial⟩
        · simp only [sendCommandLoop, hsub, hmatch, if_true, if_neg hcap]
          obtain ⟨h1, h2, h3⟩ := ih (k + 1) (counter + 5) (by omega) (by omega) (by omega)
          refine ⟨by omega, by omega, by omega⟩

/-- C9 amended: on `InvalidInstanceId` the submission is retried with a fixed
5-second delay while a counter (incremented by 5 per retry) stays below 30 —
at most 7 submissions and 5·(attempts−1) seconds of delay (30 s worst case)
before the error is re-raised; a submission error not matching
`InvalidInstanceId` is raised immediately, after a single submission. -/
theorem sendCommand_retry_bound (submit : Nat → SubmitOutcome)
    (terminal : CommandStatus) :
    (sendCommandAndStreamLogs submit terminal).2.attempts ≤ 7
    ∧ (sendCommandAndStreamLogs submit terminal).2.retrySleepSeconds =
        5 * ((sendCommandAndStreamLogs submit terminal).2.attempts - 1)
    ∧ (∀ msg, submit 0 = SubmitOutcome.raised msg →
        strContainsB msg "InvalidInstanceId" = false →
        (sendCommandAndStreamLogs submit terminal).1 = Except.error msg
        ∧ (sendCommandAndStreamLogs submit terminal).2.attempts = 1) := by
  have hb := sendCommandLoop_bound submit terminal 31 0 0 (by omega) (by omega) (by omega)
  unfold sendCommandAndStreamLogs
  refine ⟨by omega, hb.2.2, ?_⟩
  intro msg hsub hmatch
  simp [sendCommandLoop, hsub, hmatch]

/-- Witness for `sendCommand_retry_bound`: a non-matching error
(`AccessDenied`) is raised immediately after one submission. -/
theorem sendCommand_retry_bound_witness :
    (sendCommandAndStreamLogs (fun _ => SubmitOutcome.raised "AccessDenied")
      CommandStatus.success).1 = Except.error "AccessDenied"
    ∧ (sendCommandAndStreamLogs (fun _ => SubmitOutcome.raised "AccessDenied")
      CommandStatus.success).2.attempts = 1 :=
  (sendCommand_retry_bound (fun _ => SubmitOutcome.raised "AccessDenied")
    CommandStatus.success).2.2 "AccessDenied" rfl (by decide)

/-! ## The resource ledger and teardown
(ec2.py `Ec2.delete_resources_in_json`, lines 228-322;
`alto.mixins.aws_mixins.ec2Resource`, aws_mixins.py lines 33-43)

JSON objects are modelled as insertion-ordered association lists with unique
keys; Python dict lookup is first-match. -/

def lookupA {α : Type} (m : List (String × α)) (k : String) : Option α :=
  (m.find? (fun p => p.1 = k)).map Prod.snd

theorem lookupA_nil {α : Type} (k : String) :
    lookupA ([] : List (String × α)) k = none := rfl

theorem lookupA_cons {α : Type} (a : String × α) (l : List (String × α))
    (k : String) :
    lookupA (a :: l) k = if a.1 = k then some a.2 else lookupA l k := by
  unfold lookupA
  by_cases h : a.1 = k <;> simp [List.find?_cons, h]

theorem lookupA_append {α : Type} (xs ys : List (String × α)) (k : String) :
    lookupA (xs ++ ys) k =
      match lookupA xs k with
      | some v => some v
      | none => lookupA ys k := by
  induction xs with
  | nil => simp [lookupA_nil]
  | cons a as ih =>
    by_cases h : a.1 = k <;> simp [lookupA_cons, h, ih]

/-- aws_mixins.py lines 33-43 `ec2Resource`: the resource kinds the ledger can
record.  The enum has exactly these seven members — in particular it has no
`LOG_GROUP` member. -/
inductive ec2Resource
  | key_pair
  | security_group_id
  | instance_id
  | public_dns_name
  | state
  | role_arn
  | instance_profile_arn
deriving DecidableEq, Repr

/-- The `.value` of each enum member (aws_mixins.py lines 33-43). -/
def ec2Resource.value : ec2Resource → String
  | ec2Resource.key_pair => "key_pair"
  | ec2Resource.security_group_id => "security_group_id"
  | ec2Resource.instance_id => "instance_id"
  | ec2Resource.public_dns_name => "public_dns_name"
  | ec2Resource.state => "state"
  | ec2Resource.role_arn => "role_arn"
  | ec2Resource.instance_profile_arn => "instance_profile_arn"

/-- Python attribute access `ec2Resource.<NAME>` on the enum class: `none`
models the `AttributeError` raised for a name that is not a member.  The
member list is exactly that of aws_mixins.py lines 33-43; note that
`fromName "LOG_GROUP" = none`. -/
def ec2Resource.fromName : String → Option ec2Resource
  | "KEY_PAIR" => some ec2Resource.key_pair
  | "SECURITY_GROUP_ID" => some ec2Resource.security_group_id
  | "INSTANCE_ID" => some ec2Resource.instance_id
  | "PUBLIC_DNS_NAME" => some ec2Resource.public_dns_name
  | "STATE" => some ec2Resource.state
  | "ROLE_ARN" => some ec2Resource.role_arn
  | "INSTANCE_PROFILE_ARN" => some ec2Resource.instance_profile_arn
  | _ => none

/-- One `{resources, files}` ledger record (spec section 3; ec2.py lines
146-151). -/
structure LedgerRecord where
  resources : List (String × String)
  files : List (String × String)
deriving DecidableEq, Repr

/-- The whole `~/.alto/ec2.json` file: instance name → record. -/
abbrev LedgerFile := List (String × LedgerRecord)

inductive PyErr
  | valueError (msg : String)
  | keyError (key : String)
  | unboundLocalError (name : String)
  | attributeError (name : String)
  | clientError (msg : String)
  | typeError (msg : String)
  | modelFuelExhausted
deriving DecidableEq, Repr

inductive DeleteCall
  | deleteKeyPair (keyName : String)
  | unlinkPem (path : String)
  | detachAndDeleteIamRole (roleName : String)
  | deleteInstanceProfile (profileName : String)
  | terminateInstance (instanceId : String)
  | deleteSecurityGroup (securityGroupId : String)
  | sleep5
deriving DecidableEq, Repr

/-- The deletion order of `delete_resources_in_json` (ec2.py lines 248-319):
key pair, IAM role, instance profile, instance, security group. -/
def deletionKindOrder : List String :=
  ["key_pair", "role_arn", "instance_profile_arn", "instance_id",
   "security_group_id"]

/-- ec2.py lines 264-319: the IAM-role / instance-profile / instance /
security-group steps of `delete_resources_in_json`.  Each step fires iff its
resource kind is a key of the record's `resources` map; the role and profile
are deleted under the constructed names `<instance_name>-role` /
`<instance_name>-profile`; `sgDepViolations` is the oracle number of
`DependencyViolation` errors `delete_security_group` returns before
succeeding, each followed by a 5-second sleep
(`resolve_dependency_violation_and_delete_security_group`,
aws_mixins.py lines 255-269). -/
def deleteTail (instanceName : String) (resources : List (String × String))
    (sgDepViolations : Nat) (deleted : List (String × String))
    (calls : List DeleteCall) : List (String × String) × List DeleteCall :=
  let step1 : List (String × String) × List DeleteCall :=
    match lookupA resources "role_arn" with
    | some v => (deleted ++ [("role_arn", v)],
        calls ++ [DeleteCall.detachAndDeleteIamRole (instanceName ++ "-role")])
    | none => (deleted, calls)
  let step2 : List (String × String) × List DeleteCall :=
    match lookupA resources "instance_profile_arn" with
    | some v => (step1.1 ++ [("instance_profile_arn", v)],
        step1.2 ++ [DeleteCall.deleteInstanceProfile (instanceName ++ "-profile")])
    | none => step1
  let step3 : List (String × String) × List DeleteCall :=
    match lookupA resources "instance_id" with
    | some v => (step2.1 ++ [("instance_id", v)],
        step2.2 ++ [DeleteCall.terminateInstance v])
    | none => step2
  match lookupA resources "security_group_id" with
  | some v => (step3.1 ++ [("security_group_id", v)],
      step3.2 ++ (List.replicate sgDepViolations DeleteCall.sleep5 ++
        [DeleteCall.deleteSecurityGroup v]))
  | none => step3

/-- The outcome of a teardown: the returned `del_resources` map (or the raised
exception), the ledger file after the call, and the provider/filesystem calls
issued. -/
structure DeleteResult where
  result : Except PyErr (List (String × String))
  fileAfter : Option LedgerFile
  calls : List DeleteCall
deriving DecidableEq, Repr

/-- ec2.py lines 228-322 `Ec2.delete_resources_in_json`: if the ledger file is
absent, return an empty map; otherwise read the record for `instanceName`
(`json_data[self.instance_name]`, a KeyError when absent), delete the key pair
(unlinking the PEM file at `files["pem_key_path"]`), then the remaining
resource kinds present via `deleteTail`, then `os.unlink` the ledger file
itself — unconditionally — and return the map of what was deleted. -/
def deleteResourcesInJson (file : Option LedgerFile) (instanceName : String)
    (sgDepViolations : Nat) : DeleteResult :=
  match file with
  | none => ⟨Except.ok [], none, []⟩
  | some data =>
    match lookupA data instanceName with
    | none => ⟨Except.error (PyErr.keyError instanceName), some data, []⟩
    | some record =>
      match lookupA record.resources "key_pair" with
      | some kp =>
        -- delete_key_pair_and_unlink_path(..., Path(files["pem_key_path"]))
        match lookupA record.files "pem_key_path" with
        | none => ⟨Except.error (PyErr.keyError "pem_key_path"), some data, []⟩
        | some pem =>
          let r := deleteTail instanceName record.resources sgDepViolations
            [("key_pair", kp)]
            [DeleteCall.deleteKeyPair kp, DeleteCall.unlinkPem pem]
          ⟨Except.ok r.1, none, r.2⟩
      | none =>
        let r := deleteTail instanceName record.resources sgDepViolations [] []
        ⟨Except.ok r.1, none, r.2⟩

def c3TwoEntryFile : LedgerFile :=
  [("proj-a", ⟨[("security_group_id", "sg-123")], []⟩),
   ("proj-b", ⟨[("instance_id", "i-9")], []⟩)]

/-- C3 counterexample: with two instance records in the ledger file, deleting
`proj-a` (whose record holds only a security group) unlinks the whole backing
file, so `proj-b`'s record does **not** remain — contradicting the claim that
the file is deleted only when the deleted entry was the only one. -/
theorem deleteResources_file_counterexample :
    (deleteResourcesInJson (some c3TwoEntryFile) "proj-a" 0).result =
      Except.ok [("security_group_id", "sg-123")]
    ∧ (deleteResourcesInJson (some c3TwoEntryFile) "proj-a" 0).fileAfter = none
    ∧ ¬ (∃ m, (deleteResourcesInJson (some c3TwoEntryFile) "proj-a" 0).fileAfter =
          some m ∧
          lookupA m "proj-b" = some (⟨[("instance_id", "i-9")], []⟩ : LedgerRecord)) := by
  refine ⟨by decide, by decide, ?_⟩
  rintro ⟨m, hm, -⟩
  rw [show (deleteResourcesInJson (some c3TwoEntryFile) "proj-a" 0).fileAfter =
    none from by decide] at hm
  cases hm

/-- C3 amended: `delete_resources_in_json` deletes exactly the resource kinds
present in the instance's record (a record holding only SECURITY_GROUP_ID
triggers no key-pair, role, profile or instance deletion), returns the map of
what was deleted, and then unlinks the backing ledger file unconditionally —
the instance's entry is removed, but the records of every other instance name
are removed with it. -/
theorem deleteResources_exact (data : LedgerFile) (instanceName : String)
    (record : LedgerRecord) (n : Nat)
    (hrec : lookupA data instanceName = some record)
    (hpem : (lookupA record.resources "key_pair").isSome →
      (lookupA record.files "pem_key_path").isSome) :
    ∃ deleted,
      (deleteResourcesInJson (some data) instanceName n).result = Except.ok deleted
      ∧ (∀ k, k ∈ deletionKindOrder →
          lookupA deleted k = lookupA record.resources k)
      ∧ (∀ p, p ∈ deleted → p.1 ∈ deletionKindOrder)
      ∧ ((∃ s, DeleteCall.deleteKeyPair s ∈
            (deleteResourcesInJson (some data) instanceName n).calls) ↔
          (lookupA record.resources "key_pair").isSome)
      ∧ ((∃ s, DeleteCall.detachAndDeleteIamRole s ∈
            (deleteResourcesInJson (some data) instanceName n).calls) ↔
          (lookupA record.resources "role_arn").isSome)
      ∧ ((∃ s, DeleteCall.deleteInstanceProfile s ∈
            (deleteResourcesInJson (some data) instanceName n).calls) ↔
          (lookupA record.resources "instance_profile_arn").isSome)
      ∧ ((∃ s, DeleteCall.terminateInstance s ∈
            (deleteResourcesInJson (some data) instanceName n).calls) ↔
          (lookupA record.resources "instance_id").isSome)
      ∧ ((∃ s, DeleteCall.deleteSecurityGroup s ∈
            (deleteResourcesInJson (some data) instanceName n).calls) ↔
          (lookupA record.resources "security_group_id").isSome)
      ∧ (deleteResourcesInJson (some data) instanceName n).fileAfter = none := by
  cases hkp : lookupA record.resources "key_pair" with
  | some kp =>
    have hpem' := hpem (by simp [hkp])
    obtain ⟨pem, hpemEq⟩ := Option.isSome_iff_exists.mp hpem'
    simp only [deleteResourcesInJson, hrec, hkp, hpemEq]
    cases hrole : lookupA record.resources "role_arn" <;>
      cases hip : lookupA record.resources "instance_profile_arn" <;>
        cases hiid : lookupA record.resources "instance_id" <;>
          cases hsg : lookupA record.resources "security_group_id" <;>
            refine ⟨_, rfl, ?_, ?_, ?_, ?_, ?_, ?_, ?_, by trivial⟩ <;>
              simp_all [deleteTail, deletionKindOrder, lookupA_append,
                lookupA_cons, lookupA_nil, List.mem_replicate]
  | none =>
    simp only [deleteResourcesInJson, hrec, hkp]
    cases hrole : lookupA record.resources "role_arn" <;>
      cases hip : lookupA record.resources "instance_profile_arn" <;>
        cases hiid : lookupA record.resources "instance_id" <;>
          cases hsg : lookupA record.resources "security_group_id" <;>
            refine ⟨_, rfl, ?_, ?_, ?_, ?_, ?_, ?_, ?_, by trivial⟩ <;>
              simp_all [deleteTail, deletionKindOrder, lookupA_append,
                lookupA_cons, lookupA_nil, List.mem_replicate]

/-- Witness for `deleteResources_exact`: the claim's own scenario — a record
holding only `SECURITY_GROUP_ID`. -/
theorem deleteResources_exact_witness :
    ∃ deleted,
      (deleteResourcesInJson
        (some [("proj-a", (⟨[("security_group_id", "sg-123")], []⟩ : LedgerRecord))])
        "proj-a" 0).result = Except.ok deleted
      ∧ (∀ k, k ∈ deletionKindOrder →
          lookupA deleted k =
            lookupA (⟨[("security_group_id", "sg-123")], []⟩ : LedgerRecord).resources k)
      ∧ (∀ p, p ∈ deleted → p.1 ∈ deletionKindOrder)
      ∧ ((∃ s, DeleteCall.deleteKeyPair s ∈
            (deleteResourcesInJson
              (some [("proj-a", (⟨[("security_group_id", "sg-123")], []⟩ : LedgerRecord))])
              "proj-a" 0).calls) ↔
          (lookupA (⟨[("security_group_id", "sg-123")], []⟩ : LedgerRecord).resources
            "key_pair").isSome)
      ∧ ((∃ s, DeleteCall.detachAndDeleteIamRole s ∈
            (deleteResourcesInJson
              (some [("proj-a", (⟨[("security_group_id", "sg-123")], []⟩ : LedgerRecord))])
              "proj-a" 0).calls) ↔
          (lookupA (⟨[("security_group_id", "sg-123")], []⟩ : LedgerRecord).resources
            "role_arn").isSome)
      ∧ ((∃ s, DeleteCall.deleteInstanceProfile s ∈
            (deleteResourcesInJson
              (some [("proj-a", (⟨[("security_group_id", "sg-123")], []⟩ : LedgerRecord))])
              "proj-a" 0).calls) ↔
          (lookupA (⟨[("security_group_id", "sg-123")], []⟩ : LedgerRecord).resources
            "instance_profile_arn").isSome)
      ∧ ((∃ s, DeleteCall.terminateInstance s ∈
            (deleteResourcesInJson
              (some [("proj-a", (⟨[("security_group_id", "sg-123")], []⟩ : LedgerRecord))])
              "proj-a" 0).calls) ↔
          (lookupA (⟨[("security_group_id", "sg-123")], []⟩ : LedgerRecord).resources
            "instance_id").isSome)
      ∧ ((∃ s, DeleteCall.deleteSecurityGroup s ∈
            (deleteResourcesInJson
              (some [("proj-a", (⟨[("security_group_id", "sg-123")], []⟩ : LedgerRecord))])
              "proj-a" 0).calls) ↔
          (lookupA (⟨[("security_group_id", "sg-123")], []⟩ : LedgerRecord).resources
            "security_group_id").isSome)
      ∧ (deleteResourcesInJson
          (some [("proj-a", (⟨[("security_group_id", "sg-123")], []⟩ : LedgerRecord))])
          "proj-a" 0).fileAfter = none :=
  deleteResources_exact
    [("proj-a", (⟨[("security_group_id", "sg-123")], []⟩ : LedgerRecord))]
    "proj-a" (⟨[("security_group_id", "sg-123")], []⟩ : LedgerRecord) 0
    (by decide) (by decide)

/-! ## Instance state and the provider world
(aws_mixins.py `State` lines 19-25, `check_instance_data` lines 165-209,
`restart_instance` lines 114-163) -/

/-- aws_mixins.py lines 19-25. -/
inductive State
  | pending
  | running
  | stopping
  | stopped
  | shuttingDown
  | terminated
deriving DecidableEq, Repr

def State.value : State → String
  | State.pending => "pending"
  | State.running => "running"
  | State.stopping => "stopping"
  | State.stopped => "stopped"
  | State.shuttingDown => "shutting-down"
  | State.terminated => "terminated"

/-- The fields of `check_instance_data`'s result dictionary
(aws_mixins.py lines 200-206). -/
structure InstanceData where
  instanceId : String
  publicDnsName : String
  keyName : Option String
  state : State
deriving DecidableEq, Repr

structure InstanceProfileData where
  arn : String
  roleNames : List String
deriving DecidableEq, Repr

/-- Oracle for the provider during `create_resources`.  `liveInstances` is the
`describe_instances` response keyed by instance id; `pendingPolls` and
`settledState` describe the poll loop for a PENDING instance: after
`pendingPolls` further polls the instance reports `settledState`.
`newSecurityGroupId` / `newInstanceId` / `newRoleArn` /
`newInstanceProfileArn` are the identifiers the corresponding create calls
assign; `iamRoles` and `instanceProfiles` are the pre-existing IAM entities
(for the "already exists" reuse paths); `assocFailures` is the number of
`IncorrectInstanceState` / `InvalidParameterValue` errors
`associate_iam_instance_profile` returns before succeeding (each followed by
a 5-second sleep). -/
structure Ec2World where
  externalIp : String
  vpcId : String
  newSecurityGroupId : String
  newInstanceId : String
  liveInstances : List (String × InstanceData)
  pendingPolls : Nat
  settledState : State
  securityGroups : List SecurityGroup
  whitelistAll : Bool
  iamRoles : List (String × String)
  instanceProfiles : List (String × InstanceProfileData)
  newRoleArn : String
  newInstanceProfileArn : String
  assocFailures : Nat

inductive ProviderCall
  | createKeyPair (keyName : String)
  | createSecurityGroup (groupName : String)
  | authorizeIngress (securityGroupId : String)
  | deleteSecurityGroup (securityGroupId : String)
  | runInstances (instanceName : String)
  | startInstances (instanceId : String)
  | createRole (roleName : String)
  | attachRolePolicy (roleName policy : String)
  | createInstanceProfile (profileName : String)
  | addRoleToInstanceProfile (profileName roleName : String)
  | associateIamInstanceProfile (instanceId : String)
  | createLogGroup (logGroupName : String)
deriving DecidableEq, Repr

/-- The provider create calls named by the idempotent-provisioning property:
`run_instances`, `create_key_pair`, `create_security_group`, `create_role`,
`create_instance_profile`, `create_log_group`. -/
def ProviderCall.isCreateCall : ProviderCall → Bool
  | ProviderCall.createKeyPair _ => true
  | ProviderCall.createSecurityGroup _ => true
  | ProviderCall.createRole _ => true
  | ProviderCall.createInstanceProfile _ => true
  | ProviderCall.runInstances _ => true
  | ProviderCall.createLogGroup _ => true
  | _ => false

/-- aws_mixins.py lines 165-209 `check_instance_data`: scan
`describe_instances` for the id; `None` when absent. -/
def checkInstanceData (world : Ec2World) (instanceId : String) :
    Option InstanceData :=
  lookupA world.liveInstances instanceId

/-- The `while resp["state"] == State.PENDING` poll loop (ssh.py lines
417-428 / ssm.py lines 337-351): after `pendingPolls` polls the instance
reports `settled`; if the oracle never leaves PENDING the source loops
forever, which the model reports as `modelFuelExhausted`. -/
def pollWhilePending (d : InstanceData) (settled : State) :
    Nat → Except PyErr InstanceData
  | 0 =>
    if settled = State.pending then Except.error PyErr.modelFuelExhausted
    else Except.ok { d with state := settled }
  | n + 1 => pollWhilePending d settled n

/-! ## SSHProtocol.create_resources (ssh.py lines 241-453) -/

/-- ssh.py lines 405-448: `resp = self.check_instance_data(instance_id)`, the
key-name identity check, the PENDING wait / restart handling, and the final
`resource_data` write.  The restart branch (lines 431-436) calls
`restart_instance` — which issues `start_instances` and waits for RUNNING —
but never reassigns `resp`, so the ledger records the stopped-state data. -/
def sshInstanceChecks (world : Ec2World)
    (instanceName pemKeyPath securityGroupId instanceId : String)
    (calls : List ProviderCall) :
    Except PyErr LedgerRecord × List ProviderCall :=
  match checkInstanceData world instanceId with
  | none =>
    -- check_instance_data returned None: `resp.keys()` at ssh.py line 410
    -- raises AttributeError on NoneType.
    (Except.error (PyErr.attributeError "keys"), calls)
  | some d =>
    -- ssh.py lines 410-413: identity check against the live key name.
    if d.keyName ≠ some instanceName then
      (Except.error (PyErr.valueError "unrecognized key"), calls)
    else
      let write : InstanceData → List ProviderCall →
          Except PyErr LedgerRecord × List ProviderCall := fun resp calls =>
        (Except.ok
          ⟨[("key_pair", instanceName),
            ("security_group_id", securityGroupId),
            ("instance_id", instanceId),
            ("public_dns_name", resp.publicDnsName),
            ("state", resp.state.value)],
           [("pem_key_path", pemKeyPath)]⟩, calls)
      if d.state = State.pending ∨ d.state = State.running then
        if d.state = State.pending then
          match pollWhilePending d world.settledState world.pendingPolls with
          | Except.error e => (Except.error e, calls)
          | Except.ok d2 => write d2 calls
        else write d calls
      else if d.state = State.stopped ∨ d.state = State.stopping then
        -- restart_instance (aws_mixins.py lines 114-163): start_instances,
        -- then a wait loop that exits only once the state is RUNNING.
        write d (calls ++ [ProviderCall.startInstances instanceId])
      else write d calls

/-- ssh.py lines 352-402, the instance step.  The Python local `instance_id`
is assigned only on the creation branch; the reuse branch's
"Using existing EC2 instance" log (line 398) formats `instance_id` and hence
raises UnboundLocalError before anything else happens on that branch. -/
def sshInstanceStep (world : Ec2World)
    (currentResources : List (String × String))
    (instanceName pemKeyPath securityGroupId : String)
    (calls : List ProviderCall) :
    Except PyErr LedgerRecord × List ProviderCall :=
  match lookupA currentResources "instance_id" with
  | none =>
    sshInstanceChecks world instanceName pemKeyPath securityGroupId
      world.newInstanceId (calls ++ [ProviderCall.runInstances instanceName])
  | some _ =>
    (Except.error (PyErr.unboundLocalError "instance_id"), calls)

/-- ssh.py lines 307-347, the security-group step.  The creation branch is
`create_new_security_group` (lines 36-82): `describe_vpcs`,
`create_security_group`, then an ingress rule for the caller's IP — deleting
the fresh group and re-raising if the ingress call fails.  The reuse branch
re-checks the caller's IP via `check_ingress_ip`. -/
def sshSecurityGroupStep (world : Ec2World)
    (currentResources : List (String × String))
    (instanceName pemKeyPath : String) (calls : List ProviderCall) :
    Except PyErr LedgerRecord × List ProviderCall :=
  match lookupA currentResources "security_group_id" with
  | none =>
    let securityGroupId := world.newSecurityGroupId
    let groupsWithNew := world.securityGroups ++ [⟨securityGroupId, []⟩]
    match addIngressRule world.whitelistAll groupsWithNew securityGroupId
        world.externalIp with
    | Except.error e =>
      (Except.error (PyErr.clientError e),
        calls ++ [ProviderCall.createSecurityGroup instanceName,
          ProviderCall.deleteSecurityGroup securityGroupId])
    | Except.ok (added, _groups2) =>
      sshInstanceStep world currentResources instanceName pemKeyPath
        securityGroupId
        (calls ++ [ProviderCall.createSecurityGroup instanceName] ++
          (if added.isSome then [ProviderCall.authorizeIngress securityGroupId]
           else []))
  | some securityGroupId =>
    match checkIngressIp world.whitelistAll world.securityGroups
        securityGroupId world.externalIp with
    | Except.error e => (Except.error (PyErr.clientError e), calls)
    | Except.ok (added, _groups2) =>
      sshInstanceStep world currentResources instanceName pemKeyPath
        securityGroupId
        (calls ++
          (if added.isSome then [ProviderCall.authorizeIngress securityGroupId]
           else []))

/-- ssh.py lines 241-453 `SSHProtocol.create_resources`.  Every creation step
is gated on the kind being absent from the ledger record.  The key-pair reuse
branch reads `current_files[ec2File.PEM_KEY_PATH.value]` (line 288, a
KeyError when absent); the creation branch writes the PEM to
`~/.alto/<instance_name>.pem` (aws_mixins.py `create_key_pair`). -/
def sshCreateResources (world : Ec2World) (currentData : LedgerRecord)
    (instanceName _instanceType _amiImage : String) :
    Except PyErr LedgerRecord × List ProviderCall :=
  match lookupA currentData.resources "key_pair" with
  | none =>
    sshSecurityGroupStep world currentData.resources instanceName
      ("~/.alto/" ++ instanceName ++ ".pem")
      [ProviderCall.createKeyPair instanceName]
  | some _ =>
    match lookupA currentData.files "pem_key_path" with
    | none => (Except.error (PyErr.keyError "pem_key_path"), [])
    | some pem =>
      sshSecurityGroupStep world currentData.resources instanceName pem []

/-! ## SSMProtocol.create_resources (ssm.py lines 200-404) -/

/-- ssm.py lines 86-198 `create_instance_profile`: create-or-reuse the IAM
role (an "already exists" error falls back to `list_roles`), attach the three
fixed managed policies, create-or-reuse the instance profile, and attach the
role to the profile unless it is already attached.  Returns the role and
profile ARNs and the issued calls. -/
def createInstanceProfileModel (world : Ec2World)
    (iamRoleName iamInstanceProfileName : String) :
    String × String × List ProviderCall :=
  let roleStep : String × List ProviderCall :=
    match lookupA world.iamRoles iamRoleName with
    | some arn => (arn, [])
    | none => (world.newRoleArn, [ProviderCall.createRole iamRoleName])
  let attachCalls : List ProviderCall :=
    [ProviderCall.attachRolePolicy iamRoleName "AmazonSSMFullAccess",
     ProviderCall.attachRolePolicy iamRoleName
       "AmazonSSMManagedEC2InstanceDefaultPolicy",
     ProviderCall.attachRolePolicy iamRoleName "AmazonS3FullAccess"]
  let profileStep : String × Bool × List ProviderCall :=
    match lookupA world.instanceProfiles iamInstanceProfileName with
    | some p => (p.arn, !(p.roleNames.contains iamRoleName), [])
    | none =>
      (world.newInstanceProfileArn, true,
        [ProviderCall.createInstanceProfile iamInstanceProfileName])
  let addRoleCalls : List ProviderCall :=
    if profileStep.2.1 then
      [ProviderCall.addRoleToInstanceProfile iamInstanceProfileName iamRoleName]
    else []
  (roleStep.1, profileStep.1,
    roleStep.2 ++ attachCalls ++ profileStep.2.2 ++ addRoleCalls)

/-- ssm.py lines 369-404, the log-group step.  Its first expression is
`current_resources.get(ec2Resource.LOG_GROUP, None)` (line 375); the enum
(aws_mixins.py lines 33-43) has no `LOG_GROUP` member, so the attribute
access raises AttributeError before the `.get` — on every path, whatever the
ledger holds.  The intended create-or-reuse of the `<instance_name>-logs`
CloudWatch log group is therefore unreachable. -/
def ssmLogGroupStep (_instanceName : String)
    (_resourcesSoFar : List (String × String)) (calls : List ProviderCall) :
    Except PyErr LedgerRecord × List ProviderCall :=
  match ec2Resource.fromName "LOG_GROUP" with
  | none => (Except.error (PyErr.attributeError "LOG_GROUP"), calls)
  | some _ =>
    -- Unreachable: `ec2Resource.fromName "LOG_GROUP" = none`.
    (Except.error (PyErr.attributeError "LOG_GROUP"), calls)

/-- ssm.py lines 328-367: `check_instance_data` (a `None` result is a
ValueError here, lines 330-333), the PENDING wait / restart handling, the
instance-data `resource_data` update, then the log-group step. -/
def ssmInstanceChecks (world : Ec2World)
    (instanceName roleArn profileArn instanceId : String)
    (calls : List ProviderCall) :
    Except PyErr LedgerRecord × List ProviderCall :=
  match checkInstanceData world instanceId with
  | none => (Except.error (PyErr.valueError "Failed to create instance"), calls)
  | some d =>
    let write : InstanceData → List ProviderCall →
        Except PyErr LedgerRecord × List ProviderCall := fun resp calls =>
      ssmLogGroupStep instanceName
        [("role_arn", roleArn),
         ("instance_profile_arn", profileArn),
         ("instance_id", instanceId),
         ("public_dns_name", resp.publicDnsName),
         ("state", resp.state.value)] calls
    if d.state = State.pending ∨ d.state = State.running then
      if d.state = State.pending then
        match pollWhilePending d world.settledState world.pendingPolls with
        | Except.error e => (Except.error e, calls)
        | Except.ok d2 => write d2 calls
      else write d calls
    else if d.state = State.stopped ∨ d.state = State.stopping then
      write d (calls ++ [ProviderCall.startInstances instanceId])
    else write d calls

/-- ssm.py lines 249-326, the instance step: creation runs the instance and
associates the instance profile (retrying `assocFailures` times on the
association race before it succeeds); reuse reads the id from the ledger
(line 317). -/
def ssmInstanceStep (world : Ec2World)
    (currentResources : List (String × String))
    (instanceName roleArn profileArn : String) (calls : List ProviderCall) :
    Except PyErr LedgerRecord × List ProviderCall :=
  match lookupA currentResources "instance_id" with
  | none =>
    ssmInstanceChecks world instanceName roleArn profileArn world.newInstanceId
      (calls ++ [ProviderCall.runInstances instanceName,
        ProviderCall.associateIamInstanceProfile world.newInstanceId])
  | some instanceId =>
    ssmInstanceChecks world instanceName roleArn profileArn instanceId calls

/-- ssm.py lines 200-404 `SSMProtocol.create_resources`: the instance-profile
step (creation gated on INSTANCE_PROFILE_ARN being absent; the reuse branch
reads `current_resources[ec2Resource.ROLE_ARN.value]`, a KeyError when
absent), then the instance step, then the log-group step. -/
def ssmCreateResources (world : Ec2World) (currentData : LedgerRecord)
    (instanceName _instanceType _amiImage : String) :
    Except PyErr LedgerRecord × List ProviderCall :=
  match lookupA currentData.resources "instance_profile_arn" with
  | none =>
    let r := createInstanceProfileModel world (instanceName ++ "-role")
      (instanceName ++ "-profile")
    ssmInstanceStep world currentData.resources instanceName r.1 r.2.1 r.2.2
  | some profileArn =>
    match lookupA currentData.resources "role_arn" with
    | none => (Except.error (PyErr.keyError "role_arn"), [])
    | some roleArn =>
      ssmInstanceStep world currentData.resources instanceName roleArn
        profileArn []

theorem ssmLogGroupStep_errors (instanceName : String)
    (resourcesSoFar : List (String × String)) (calls : List ProviderCall) :
    (ssmLogGroupStep instanceName resourcesSoFar calls).1 =
      Except.error (PyErr.attributeError "LOG_GROUP") := rfl

theorem ssmInstanceChecks_errors (world : Ec2World)
    (instanceName roleArn profileArn instanceId : String)
    (calls : List ProviderCall) :
    ∃ e, (ssmInstanceChecks world instanceName roleArn profileArn instanceId
      calls).1 = Except.error e := by
  unfold ssmInstanceChecks
  split
  · exact ⟨_, rfl⟩
  · split
    · split
      · split
        · exact ⟨_, rfl⟩
        · exact ⟨_, rfl⟩
      · exact ⟨_, rfl⟩
    · split
      · exact ⟨_, rfl⟩
      · exact ⟨_, rfl⟩

theorem ssmInstanceStep_errors (world : Ec2World)
    (currentResources : List (String × String))
    (instanceName roleArn profileArn : String) (calls : List ProviderCall) :
    ∃ e, (ssmInstanceStep world currentResources instanceName roleArn
      profileArn calls).1 = Except.error e := by
  unfold ssmInstanceStep
  split
  · exact ssmInstanceChecks_errors world instanceName roleArn profileArn
      world.newInstanceId _
  · exact ssmInstanceChecks_errors world instanceName roleArn profileArn _ calls

/-- C2: contrary to the claim, `LOG_GROUP` is **not** a member of the
`ec2Resource` enumeration (aws_mixins.py lines 33-43 define only KEY_PAIR,
SECURITY_GROUP_ID, INSTANCE_ID, PUBLIC_DNS_NAME, STATE, ROLE_ARN,
INSTANCE_PROFILE_ARN); the log-group step of the SSM `create_resources` reads
`ec2Resource.LOG_GROUP` and therefore raises AttributeError, so
`create_resources` never returns successfully on the SSM path — in
particular it never records a log group. -/
theorem ssmCreateResources_never_succeeds :
    ec2Resource.fromName "LOG_GROUP" = none
    ∧ ∀ (world : Ec2World) (currentData : LedgerRecord)
      (instanceName instanceType amiImage : String),
      ∃ e, (ssmCreateResources world currentData instanceName instanceType
        amiImage).1 = Except.error e := by
  refine ⟨rfl, ?_⟩
  intro world currentData instanceName instanceType amiImage
  unfold ssmCreateResources
  split
  · exact ssmInstanceStep_errors world currentData.resources instanceName _ _ _
  · split
    · exact ⟨_, rfl⟩
    · exact ssmInstanceStep_errors world currentData.resources instanceName _ _ []

/-! ## C1 and C5: concrete runs of `create_resources` on a fully populated
ledger -/

/-- A benign provider world: the live instance `i-123` is RUNNING, is named
with the expected key, and the recorded security group already whitelists the
caller's IP `1.2.3.4`. -/
def c1World : Ec2World :=
  { externalIp := "1.2.3.4"
    vpcId := "vpc-1"
    newSecurityGroupId := "sg-new"
    newInstanceId := "i-new"
    liveInstances :=
      [("i-123", ⟨"i-123", "ec2-1-2-3-4.compute.amazonaws.com",
        some "my-project-agent", State.running⟩)]
    pendingPolls := 0
    settledState := State.running
    securityGroups := [⟨"sg-1", [⟨"tcp", 22, 22, ["1.2.3.4/32"], []⟩]⟩]
    whitelistAll := false
    iamRoles := [("my-project-agent-role", "arn:aws:iam::1:role/my-project-agent-role")]
    instanceProfiles :=
      [("my-project-agent-profile",
        ⟨"arn:aws:iam::1:instance-profile/my-project-agent-profile",
          ["my-project-agent-role"]⟩)]
    newRoleArn := "arn:aws:iam::1:role/new"
    newInstanceProfileArn := "arn:aws:iam::1:instance-profile/new"
    assocFailures := 0 }

/-- A fully populated SSH-path ledger record: key pair, security group,
instance, DNS name, state, and the PEM file path. -/
def c1SshLedger : LedgerRecord :=
  ⟨[("key_pair", "my-project-agent"),
    ("security_group_id", "sg-1"),
    ("instance_id", "i-123"),
    ("public_dns_name", "ec2-1-2-3-4.compute.amazonaws.com"),
    ("state", "running")],
   [("pem_key_path", "~/.alto/my-project-agent.pem")]⟩

/-- A fully populated SSM-path ledger record: role, instance profile,
instance, DNS name, state, log group. -/
def c1SsmLedger : LedgerRecord :=
  ⟨[("role_arn", "arn:aws:iam::1:role/my-project-agent-role"),
    ("instance_profile_arn",
      "arn:aws:iam::1:instance-profile/my-project-agent-profile"),
    ("instance_id", "i-123"),
    ("public_dns_name", "ec2-1-2-3-4.compute.amazonaws.com"),
    ("state", "running"),
    ("log_group", "my-project-agent-logs")],
   []⟩

/-- C1: with a fully populated ledger and an unchanged config, neither
protocol issues any provider create call — but neither returns successfully
either: the SSH path raises UnboundLocalError at the "Using existing EC2
instance" log (ssh.py line 398, `instance_id` is unassigned on the reuse
branch), and the SSM path raises AttributeError at the log-group step
(ssm.py line 375, the enum has no LOG_GROUP member). -/
theorem createResources_full_ledger_no_creates :
    (sshCreateResources c1World c1SshLedger "my-project-agent" "t2.micro"
      "ami-1").1 = Except.error (PyErr.unboundLocalError "instance_id")
    ∧ ((sshCreateResources c1World c1SshLedger "my-project-agent" "t2.micro"
      "ami-1").2.filter ProviderCall.isCreateCall) = []
    ∧ (ssmCreateResources c1World c1SsmLedger "my-project-agent" "t2.micro"
      "ami-1").1 = Except.error (PyErr.attributeError "LOG_GROUP")
    ∧ ((ssmCreateResources c1World c1SsmLedger "my-project-agent" "t2.micro"
      "ami-1").2.filter ProviderCall.isCreateCall) = [] := by
  refine ⟨by decide, by decide, by decide, by decide⟩

/-- The world of the identity-mismatch scenario: the ledger records
`INSTANCE_ID = i-123` and the live instance `i-123` carries
`KeyName = other-name`. -/
def c5World : Ec2World :=
  { c1World with
    liveInstances :=
      [("i-123", ⟨"i-123", "ec2-1-2-3-4.compute.amazonaws.com",
        some "other-name", State.running⟩)] }

/-- C5: in the claim's scenario (ledger INSTANCE_ID=i-123, live instance
i-123 with KeyName=other-name) `create_resources` does raise before creating
anything — but it raises UnboundLocalError at ssh.py line 398, not the
identity-mismatch ValueError: the key-name comparison at ssh.py line 410 is
unreachable on the ledger-reuse branch (and no branch ever compares the
security-group name). -/
theorem identityMismatch_check_unreachable :
    (sshCreateResources c5World c1SshLedger "my-project-agent" "t2.micro"
      "ami-1").1 = Except.error (PyErr.unboundLocalError "instance_id")
    ∧ ∀ msg, (sshCreateResources c5World c1SshLedger "my-project-agent"
      "t2.micro" "ami-1").1 ≠ Except.error (PyErr.valueError msg) := by
  refine ⟨by decide, ?_⟩
  intro msg h
  rw [show (sshCreateResources c5World c1SshLedger "my-project-agent"
    "t2.micro" "ami-1").1 = Except.error (PyErr.unboundLocalError "instance_id")
    from by decide] at h
  exact absurd h (by simp)

end Alto
